import Mathlib

/-
  Verification development for the grade-ref backend: the match lifecycle
  and grading workflow (MatchesService).  The TypeScript source is shallowly
  embedded: strings are lists of characters, JS numbers are modelled by an
  inductive with rational magnitude (IEEE rounding is irrelevant to every
  property below), timestamps are milliseconds since the epoch as integers,
  and each orchestrator operation returns the list of outbound gateway
  effects it performs together with its result, so that ordering and
  at-most-once/exactly-once sending facts are statable.
-/

namespace GradeRef

/-! ### Decimal rendering of numbers, JS-style (String(n), slice(-2), padStart(2, '0')) -/

/-- The character for a decimal digit value. -/
def digitChar (d : Nat) : Char := Char.ofNat (48 + d)

/-- Fuel-driven decimal rendering of a natural number (most significant first);
`natStrAux f n` is the digit string of `n` whenever `n < f`. -/
def natStrAux : Nat → Nat → List Char
  | 0, _ => []
  | f + 1, n => if n = 0 then [] else natStrAux f (n / 10) ++ [digitChar (n % 10)]

/-- JS `String(n)` for a natural number. -/
def natStr (n : Nat) : List Char :=
  if n = 0 then ['0'] else natStrAux (n + 1) n

/-- JS `s.slice(-2)`: the last two characters (the whole string when shorter). -/
def sliceLast2 (s : List Char) : List Char := (s.reverse.take 2).reverse

/-- JS `s.padStart(2, '0')`. -/
def padStart2 (s : List Char) : List Char :=
  if 2 ≤ s.length then s else List.replicate (2 - s.length) '0' ++ s

/-- The canonical zero-padded two-digit rendering of `n % 100`. -/
def twoDig (n : Nat) : List Char := [digitChar (n / 10 % 10), digitChar (n % 10)]

/-! ### JS `ToNumber` on strings (the unary `+` coercion and `isNaN` check) -/

/-- JS number values: rationals stand in for finite doubles (none of the
verified properties depends on IEEE rounding), plus the infinities and NaN. -/
inductive JsNum where
  | num (q : ℚ)
  | posInf
  | negInf
  | nan
deriving DecidableEq

def JsNum.isNaN : JsNum → Bool
  | .nan => true
  | _ => false

/-- JS truthiness of a number: falsy exactly on `0`, `-0` and `NaN`. -/
def JsNum.truthy : JsNum → Bool
  | .num q => decide (q ≠ 0)
  | .nan => false
  | .posInf => true
  | .negInf => true

/-- Truthiness of an optional numeric field (`undefined`/`null` are falsy). -/
def jsTruthyNum : Option JsNum → Bool
  | none => false
  | some v => v.truthy

/-- Truthiness of an optional string field (empty string is falsy). -/
def jsTruthyStr : Option (List Char) → Bool
  | none => false
  | some s => !s.isEmpty

/-- ECMAScript StrWhiteSpace characters (WhiteSpace and LineTerminator). -/
def jsWhitespace (c : Char) : Bool :=
  decide (c.toNat = 32 ∨ c.toNat = 9 ∨ c.toNat = 10 ∨ c.toNat = 11 ∨ c.toNat = 12 ∨
    c.toNat = 13 ∨ c.toNat = 160 ∨ c.toNat = 0x1680 ∨
    (0x2000 ≤ c.toNat ∧ c.toNat ≤ 0x200A) ∨ c.toNat = 0x2028 ∨ c.toNat = 0x2029 ∨
    c.toNat = 0x202F ∨ c.toNat = 0x205F ∨ c.toNat = 0x3000 ∨ c.toNat = 0xFEFF)

def trimJsWs (s : List Char) : List Char :=
  ((s.dropWhile jsWhitespace).reverse.dropWhile jsWhitespace).reverse

/-- Split off a maximal leading run of decimal digits. -/
def takeDigits : List Char → List Char × List Char
  | [] => ([], [])
  | c :: rest =>
    if c.isDigit then
      let (d, r) := takeDigits rest
      (c :: d, r)
    else ([], c :: rest)

def natOfDigits (s : List Char) : Nat :=
  s.foldl (fun a c => 10 * a + (c.toNat - 48)) 0

def allDigits (s : List Char) : Bool := s.all (·.isDigit)

def nonEmptyAllDigits (s : List Char) : Bool := !s.isEmpty && allDigits s

/-- A signed run of decimal digits (exponent body). -/
def signedDigitsInt : List Char → Option Int
  | '+' :: r => if nonEmptyAllDigits r then some (natOfDigits r : Int) else none
  | '-' :: r => if nonEmptyAllDigits r then some (-(natOfDigits r : Int)) else none
  | r => if nonEmptyAllDigits r then some (natOfDigits r : Int) else none

/-- The optional exponent suffix of a decimal literal; `none` when malformed. -/
def parseExp : List Char → Option Int
  | [] => some 0
  | 'e' :: r => signedDigitsInt r
  | 'E' :: r => signedDigitsInt r
  | _ => none

/-- Exact value of the decimal literal with integer digits `d`, fraction
digits `f` and exponent `e`: `(D + F / 10^|f|) * 10^e` as a rational,
built with `mkRat` so the kernel can evaluate it. -/
def decValue (d f : List Char) (e : Int) : ℚ :=
  let base : Int := (natOfDigits d * 10 ^ f.length + natOfDigits f : Nat)
  if 0 ≤ e then mkRat (base * (10 : Int) ^ e.toNat) ((10 : Nat) ^ f.length)
  else mkRat base ((10 : Nat) ^ f.length * (10 : Nat) ^ (-e).toNat)

/-- ECMAScript StrUnsignedDecimalLiteral (without Infinity): value, or `none`
when the text is not a decimal literal. -/
def parseUnsignedDec (s : List Char) : Option ℚ :=
  let (d, rest) := takeDigits s
  match rest with
  | '.' :: r2 =>
    let (f, rest2) := takeDigits r2
    if d.isEmpty && f.isEmpty then none
    else (parseExp rest2).map fun e => decValue d f e
  | _ =>
    if d.isEmpty then none
    else (parseExp rest).map fun e => decValue d [] e

def infinityChars : List Char := ['I', 'n', 'f', 'i', 'n', 'i', 't', 'y']

def unsignedOrInf (s : List Char) (neg : Bool) : JsNum :=
  if s = infinityChars then (if neg then JsNum.negInf else JsNum.posInf)
  else
    match parseUnsignedDec s with
    | some q => JsNum.num (if neg then -q else q)
    | none => JsNum.nan

def hexDigitVal (c : Char) : Nat :=
  if '0' ≤ c ∧ c ≤ '9' then c.toNat - 48
  else if 'a' ≤ c ∧ c ≤ 'f' then c.toNat - 87
  else if 'A' ≤ c ∧ c ≤ 'F' then c.toNat - 55
  else 99

/-- A 0x/0o/0b literal body in base `b`; empty or out-of-range digits give NaN. -/
def radixValue (b : Nat) (s : List Char) : JsNum :=
  if !s.isEmpty && s.all (fun c => hexDigitVal c < b) then
    JsNum.num (mkRat ((s.foldl (fun a c => b * a + hexDigitVal c) 0 : Nat) : Int) 1)
  else JsNum.nan

/-- JS `+s` (ToNumber applied to a string). -/
def jsToNumber (s : List Char) : JsNum :=
  match trimJsWs s with
  | [] => JsNum.num 0
  | '+' :: r => unsignedOrInf r false
  | '-' :: r => unsignedOrInf r true
  | '0' :: 'x' :: r => radixValue 16 r
  | '0' :: 'X' :: r => radixValue 16 r
  | '0' :: 'o' :: r => radixValue 8 r
  | '0' :: 'O' :: r => radixValue 8 r
  | '0' :: 'b' :: r => radixValue 2 r
  | '0' :: 'B' :: r => radixValue 2 r
  | t => unsignedOrInf t false

/-! ### JS `String.prototype.split` with a one-character separator -/

/-- JS `s.split(sep)` for a single-character separator: never empty, keeps
empty segments, `""` splits to `[""]`. -/
def splitOnChar (sep : Char) : List Char → List (List Char)
  | [] => [[]]
  | c :: rest =>
    let r := splitOnChar sep rest
    if c = sep then [] :: r
    else
      match r with
      | [] => [[c]]
      | h :: t => (c :: h) :: t

/-! ### UTC calendar fields and the key formatter (`getUserReadableKey`) -/

/-- The UTC calendar view of a JS `Date`: `getUTCFullYear`, `getUTCMonth`
(0-based) and `getUTCDate` (day of month). -/
structure UtcDate where
  utcFullYear : Nat
  utcMonth : Nat
  utcDate : Nat
deriving DecidableEq

def msPerHour : Int := 3600000

def msPerDay : Int := 86400000

/-- UTC calendar fields of a millisecond timestamp (the civil-from-days
algorithm JS `Date` accessors implement). -/
def utcFieldsOfMs (t : Int) : UtcDate :=
  let z := Int.fdiv t msPerDay + 719468
  let era := Int.fdiv z 146097
  let doe := z - era * 146097
  let yoe := Int.fdiv (doe - Int.fdiv doe 1460 + Int.fdiv doe 36524 - Int.fdiv doe 146096) 365
  let y := yoe + era * 400
  let doy := doe - (365 * yoe + Int.fdiv yoe 4 - Int.fdiv yoe 100)
  let mp := Int.fdiv (5 * doy + 2) 153
  let d := doy - Int.fdiv (153 * mp + 2) 5 + 1
  let m := mp + (if mp < 10 then 3 else -9)
  let year := y + (if m ≤ 2 then 1 else 0)
  ⟨year.toNat, (m - 1).toNat, d.toNat⟩

/-- `MatchesService.getUserReadableKey`: two-digit UTC day, month and year
(each `String(...).slice(-2).padStart(2, '0')`), then `String(leagueIdx + 1)`
and `String(homeTeamIdx + 1)`, each only `padStart(2, '0')`-ed (no slice). -/
def getUserReadableKey (dtoDate : UtcDate) (leagueIdx homeTeamIdx : Nat) : List Char :=
  let day := sliceLast2 (natStr dtoDate.utcDate)
  let month := sliceLast2 (natStr (dtoDate.utcMonth + 1))
  let year := sliceLast2 (natStr dtoDate.utcFullYear)
  padStart2 day ++ padStart2 month ++ padStart2 year ++
    padStart2 (natStr (leagueIdx + 1)) ++ padStart2 (natStr (homeTeamIdx + 1))

/-! ### The data model: `Match` rows, DTOs, gateway responses and effects -/

/-- A `Match` entity row. Ids are abstract numerals; text we never compute on
is `String`, text the service splits or renders is `List Char`. -/
structure Match where
  id : Nat
  userReadableKey : List Char
  matchDate : Int
  stadium : String := ""
  homeTeamId : Nat := 0
  awayTeamId : Nat := 0
  refereeId : Nat := 0
  observerId : Nat := 0
  leagueId : Nat := 0
  observerSmsId : List Char := []
  refereeGrade : Option JsNum := none
  refereeGradeDate : Option Int := none
  refereeNote : Option String := none
  overallGrade : Option (List Char) := none
  overallGradeDate : Option Int := none
deriving DecidableEq

structure CreateMatchDto where
  matchDate : Int
  stadium : String := ""
  homeTeamId : Nat
  awayTeamId : Nat
  refereeId : Nat := 0
  observerId : Nat := 0
deriving DecidableEq

/-- The synchronous HTTP answer of the SMS gateway to one request. -/
structure GwResponse where
  status : Nat
  messageId : Nat
deriving DecidableEq

/-- Outbound side effects of an orchestrator operation, in program order. -/
inductive Effect where
  | postScheduledSms (recipient : String) (dtoDate : Int) (messageKey : List Char)
  | sendSms (recipient : String) (message : String)
  | cancelMessage (messageId : JsNum)
  | saveMatch (m : Match)
deriving DecidableEq

instance {ε α : Type} [DecidableEq ε] [DecidableEq α] : DecidableEq (Except ε α) := fun
  | .error e, .error f =>
    match decEq e f with
    | isTrue h => isTrue (by rw [h])
    | isFalse h => isFalse (by intro hh; cases hh; exact h rfl)
  | .error _, .ok _ => isFalse (by intro h; cases h)
  | .ok _, .error _ => isFalse (by intro h; cases h)
  | .ok a, .ok b =>
    match decEq a b with
    | isTrue h => isTrue (by rw [h])
    | isFalse h => isFalse (by intro hh; cases hh; exact h rfl)

/-- Projection of an effect onto one-way SMS sends (recipient, message). -/
def Effect.sent? : Effect → Option (String × String)
  | .sendSms rcpt msg => some (rcpt, msg)
  | _ => none

/-! ### Time windows -/

def MATCH_DURATION : Int := 2

def GRADE_ENTRY_TIME_WINDOW : Int := 2 + MATCH_DURATION

def OVERALL_GRADE_ENTRY_TIME_WINDOW : Int := 48 + MATCH_DURATION

/-- Modelled from the spec: `validateEntryTime` (src/shared/validators) is
referenced by the service but its source file is not in the repository
snapshot.  Per the spec, the entry window denotes the minimum elapsed time
before an action is allowed: the check passes iff the current time has
reached `referenceTime + windowHours` hours (false at T+3h59m, true at
T+4h00m and beyond for a 4-hour window); a violation raises a 400-class
rejection, rendered here as `false`. -/
def validateEntryTime (referenceTime : Int) (windowHours : Int) (now : Int) : Bool :=
  referenceTime + windowHours * msPerHour ≤ now

/-! ### Grade entry (API path) -/

/-- `MatchesService.updateGrade`: re-applies the short-window check only when
a truthy `refereeGrade` is already stored, then overwrites grade and date.
`none` models the thrown rejection. -/
def updateGrade (m : Match) (dtoRefereeGrade : Option JsNum) (now : Int) : Option Match :=
  if jsTruthyNum m.refereeGrade then
    if validateEntryTime m.matchDate GRADE_ENTRY_TIME_WINDOW now then
      some { m with refereeGrade := dtoRefereeGrade, refereeGradeDate := some now }
    else none
  else some { m with refereeGrade := dtoRefereeGrade, refereeGradeDate := some now }

/-- `MatchesService.updateOverallGrade`: the same shape on the
`overallGrade`/`overallGradeDate` pair with the long window. -/
def updateOverallGrade (m : Match) (dtoOverallGrade : Option (List Char)) (now : Int) :
    Option Match :=
  if jsTruthyStr m.overallGrade then
    if validateEntryTime m.matchDate OVERALL_GRADE_ENTRY_TIME_WINDOW now then
      some { m with overallGrade := dtoOverallGrade, overallGradeDate := some now }
    else none
  else some { m with overallGrade := dtoOverallGrade, overallGradeDate := some now }

/-! ### The inbound grade-SMS parser/validator -/

/-- `MatchesService.requireSmsValid`: the result is the rejection reply the
method sends before returning `false`, or `none` when it returns `true`.
The `try`/`catch` around the two splits can never fire (splitting a string
on a non-empty separator does not throw), so it is not represented. -/
def requireSmsValid (smsText : List Char) : Option String :=
  match splitOnChar '#' smsText with
  | [matchKey, gradePart] =>
    if matchKey.isEmpty then some "Invalid match key."
    else
      match splitOnChar '/' gradePart with
      | [gradeTok, _maxTok] =>
        if (jsToNumber gradeTok).isNaN then some "Invalid grade." else none
      | _ => some "Invalid sms grade format."
  | _ => some "Invalid sms format."

/-- `MatchesService.requireSmsMatchKeyValid`: rejection reply, or `none`. -/
def requireSmsMatchKeyValid (m : Option Match) (now : Int) : Option String :=
  match m with
  | none => some "Invalid match key."
  | some mm =>
    if jsTruthyNum mm.refereeGrade then some "Grade has already been entered."
    else if now < mm.matchDate + MATCH_DURATION * msPerHour then
      some "Cannot enter a grade before match end."
    else none

/-- `MatchesService.requireSmsGradeValid`: re-parses the grade token; the
`catch` branch models the TypeError of indexing a missing `#`-segment. -/
def requireSmsGradeValid (smsText : List Char) : Option String :=
  match splitOnChar '#' smsText with
  | _ :: gradePart :: _ =>
    if (jsToNumber ((splitOnChar '/' gradePart).headD [])).isNaN then
      some "Invalid grade."
    else none
  | _ => some "Invalid sms grade format."

/-- JS `gradeMessage.msg.split('#')[0]` (split never yields an empty list). -/
def smsMatchKey (msg : List Char) : List Char := (splitOnChar '#' msg).headD []

/-- JS `+gradeMessage.msg.split('#')[1].split('/')[0]` on a shape-validated body. -/
def smsGradeVal (msg : List Char) : JsNum :=
  jsToNumber ((splitOnChar '/' ((splitOnChar '#' msg).getD 1 [])).headD [])

/-- The row as saved on the success path: parsed grade and a fresh date. -/
def gradedMatch (m : Match) (msg : List Char) (now : Int) : Match :=
  { m with refereeGrade := some (smsGradeVal msg), refereeGradeDate := some now }

/-- `MatchesService.updateGradeSms`: the full inbound-SMS pipeline over a
stored list of matches.  Returns the outbound effects in program order and
the resulting storage state.  One-way sends are assumed accepted by the
gateway (their non-200 branch is not taken), matching the claim context.
The `([], db)` arm models dereferencing the absent match after
`requireSmsMatchKeyValid` passed, which is proved unreachable. -/
def updateGradeSms (msg : List Char) (observerPhone : String) (db : List Match) (now : Int) :
    List Effect × List Match :=
  match requireSmsValid msg with
  | some reply => ([Effect.sendSms observerPhone reply], db)
  | none =>
    match requireSmsMatchKeyValid
        (db.find? fun m => decide (m.userReadableKey = smsMatchKey msg)) now with
    | some reply => ([Effect.sendSms observerPhone reply], db)
    | none =>
      match db.find? fun m => decide (m.userReadableKey = smsMatchKey msg) with
      | none => ([], db)
      | some m =>
        match requireSmsGradeValid msg with
        | some reply => ([Effect.sendSms observerPhone reply], db)
        | none =>
          ([Effect.saveMatch (gradedMatch m msg now),
            Effect.sendSms observerPhone
              ("Grade for match " ++ String.mk (gradedMatch m msg now).userReadableKey ++
                " has been entered.")],
           db.map fun x => if x.id = (gradedMatch m msg now).id then gradedMatch m msg now else x)

/-! ### Match validation (conflict rule) -/

/-- Start of the calendar day containing `t` (dayjs `startOf('day')`). -/
def dayStartMs (t : Int) : Int := Int.fdiv t msPerDay * msPerDay

/-- The TypeORM `where` of `validateMatch`: same calendar day (inclusive
`Between` start-of-day and end-of-day) and a shared team on either side. -/
def conflictsWith (dto : CreateMatchDto) (m : Match) : Bool :=
  decide ((dayStartMs dto.matchDate ≤ m.matchDate ∧
           m.matchDate ≤ dayStartMs dto.matchDate + (msPerDay - 1)) ∧
    (m.homeTeamId = dto.homeTeamId ∨ m.homeTeamId = dto.awayTeamId ∨
     m.awayTeamId = dto.homeTeamId ∨ m.awayTeamId = dto.awayTeamId))

/-- `MatchesService.validateMatch`: the rejection message, or `none` when
validation passes.  `findOne` is modelled as the first row (in storage
order) satisfying the conflict predicate. -/
def validateMatch (db : List Match) (dto : CreateMatchDto) (existingId : Option Nat) :
    Option String :=
  let existingMatch := db.find? (conflictsWith dto)
  if dto.homeTeamId = dto.awayTeamId then some "Home team same as away team"
  else
    match existingMatch with
    | some em => if some em.id ≠ existingId then
        some "One of the teams already has a match at that day"
      else none
    | none => none

/-! ### SMS gateway client and match creation -/

/-- `MatchesService.scheduleSms`: posts the scheduled notification and either
fails on a non-200 status (`ServiceUnavailableException`) or returns the
gateway message id as a string (`response.data.messageId.toString()`).
Message templating and date formatting are carried as raw parameters. -/
def scheduleSms (dtoDate : Int) (messageKey : List Char) (phoneNumber : String)
    (resp : GwResponse) : List Effect × Except String (List Char) :=
  ([Effect.postScheduledSms phoneNumber dtoDate messageKey],
   if resp.status ≠ 200 then Except.error "SMS API error: "
   else Except.ok (natStr resp.messageId))

/-- `MatchesService.createMatch`: validate, derive the key, schedule the SMS,
then create and save the row.  The saved row only exists when scheduling
succeeded; the effect list records the order of the side effects. -/
def createMatch (db : List Match) (leagueId : Nat) (dto : CreateMatchDto)
    (leagueIdx homeTeamIdx : Nat) (observerPhoneNumber : String) (resp : GwResponse)
    (newId : Nat) : List Effect × Except String (List Match) :=
  match validateMatch db dto none with
  | some err => ([], Except.error err)
  | none =>
    let matchKey := getUserReadableKey (utcFieldsOfMs dto.matchDate) leagueIdx homeTeamIdx
    let (effs, sched) := scheduleSms dto.matchDate matchKey observerPhoneNumber resp
    match sched with
    | Except.error e => (effs, Except.error e)
    | Except.ok observerSmsId =>
      let m : Match :=
        { id := newId, userReadableKey := matchKey, matchDate := dto.matchDate,
          stadium := dto.stadium, homeTeamId := dto.homeTeamId,
          awayTeamId := dto.awayTeamId, refereeId := dto.refereeId,
          observerId := dto.observerId, leagueId := leagueId,
          observerSmsId := observerSmsId }
      (effs ++ [Effect.saveMatch m], Except.ok (db ++ [m]))

/-- `MatchesService.cancelSMS`: coerces the stored id with unary `+` (no
NaN check) and posts the cancel request with the coerced value; the only
failure is a non-200 gateway status. -/
def cancelSMS (smsId : List Char) (resp : GwResponse) : List Effect × Except String Unit :=
  let smsIdInt := jsToNumber smsId
  ([Effect.cancelMessage smsIdInt],
   if resp.status ≠ 200 then Except.error "SMS API error: " else Except.ok ())

/-! ### Parser gate lemmas -/

lemma requireSmsValid_not_two (s : List Char)
    (h : (splitOnChar '#' s).length ≠ 2) :
    requireSmsValid s = some "Invalid sms format." := by
  unfold requireSmsValid
  rcases hs : splitOnChar '#' s with _ | ⟨a, _ | ⟨b, _ | ⟨c, t⟩⟩⟩
  · rfl
  · rfl
  · rw [hs] at h; simp at h
  · rfl

lemma requireSmsValid_empty_key (s g : List Char)
    (h : splitOnChar '#' s = [[], g]) :
    requireSmsValid s = some "Invalid match key." := by
  unfold requireSmsValid
  rw [h]
  simp

lemma requireSmsValid_bad_slash (s k g : List Char)
    (h : splitOnChar '#' s = [k, g]) (hk : k ≠ [])
    (hg : (splitOnChar '/' g).length ≠ 2) :
    requireSmsValid s = some "Invalid sms grade format." := by
  unfold requireSmsValid
  rw [h]
  have hke : k.isEmpty = false := by cases k <;> simp_all
  simp only [hke, Bool.false_eq_true, if_false]
  rcases hgs : splitOnChar '/' g with _ | ⟨a, _ | ⟨b, _ | ⟨c, t⟩⟩⟩
  · rfl
  · rfl
  · rw [hgs] at hg; simp at hg
  · rfl

lemma requireSmsValid_bad_grade (s k g t mx : List Char)
    (h : splitOnChar '#' s = [k, g]) (hk : k ≠ [])
    (h2 : splitOnChar '/' g = [t, mx]) (hn : (jsToNumber t).isNaN = true) :
    requireSmsValid s = some "Invalid grade." := by
  unfold requireSmsValid
  rw [h]
  have hke : k.isEmpty = false := by cases k <;> simp_all
  simp [hke, h2, hn]

lemma requireSmsValid_ok (s k g t mx : List Char)
    (h : splitOnChar '#' s = [k, g]) (hk : k ≠ [])
    (h2 : splitOnChar '/' g = [t, mx]) (hn : (jsToNumber t).isNaN = false) :
    requireSmsValid s = none := by
  unfold requireSmsValid
  rw [h]
  have hke : k.isEmpty = false := by cases k <;> simp_all
  simp [hke, h2, hn]

lemma updateGradeSms_rejected (s : List Char) (phone : String) (db : List Match) (now : Int)
    (reply : String) (h : requireSmsValid s = some reply) :
    updateGradeSms s phone db now = ([Effect.sendSms phone reply], db) := by
  unfold updateGradeSms
  rw [h]

/-! ### Claims C1 - C3: the inbound grade-SMS parser -/

/-- C1, counterexample: the body `"#5"` has a second `#`-segment with no `/`,
so under the claimed gate order (syntax before key-presence) the reply would
be "Invalid sms grade format.", but the code checks key-presence before the
`/`-shape and replies "Invalid match key.". -/
theorem c1_counterexample :
    requireSmsValid "#5".toList = some "Invalid match key."
    ∧ splitOnChar '#' "#5".toList = [[], ['5']]
    ∧ (splitOnChar '/' ['5']).length = 1
    ∧ some "Invalid match key." ≠ some "Invalid sms grade format." := by decide

/-- C1 (amended): the parser applies its rejection gates in the fixed order
`#`-shape, key-presence, `/`-shape, grade-numeric, and emits the exact reply
of the first failing gate: no-`#` bodies get "Invalid sms format.", an empty
key gets "Invalid match key.", a second segment without `/` (with a nonempty
key) gets "Invalid sms grade format.", and a non-numeric grade token gets
"Invalid grade."; the four quoted examples behave as listed. -/
theorem c1_parser_gate_order :
    (∀ s : List Char, (splitOnChar '#' s).length ≠ 2 →
      requireSmsValid s = some "Invalid sms format.")
    ∧ (∀ s g : List Char, splitOnChar '#' s = [[], g] →
      requireSmsValid s = some "Invalid match key.")
    ∧ (∀ s k g : List Char, splitOnChar '#' s = [k, g] → k ≠ [] →
      (splitOnChar '/' g).length ≠ 2 →
      requireSmsValid s = some "Invalid sms grade format.")
    ∧ (∀ s k g t mx : List Char, splitOnChar '#' s = [k, g] → k ≠ [] →
      splitOnChar '/' g = [t, mx] → (jsToNumber t).isNaN = true →
      requireSmsValid s = some "Invalid grade.")
    ∧ requireSmsValid "ABC".toList = some "Invalid sms format."
    ∧ requireSmsValid "KEY#5".toList = some "Invalid sms grade format."
    ∧ requireSmsValid "#5/10".toList = some "Invalid match key."
    ∧ requireSmsValid "KEY#x/10".toList = some "Invalid grade." :=
  ⟨requireSmsValid_not_two, requireSmsValid_empty_key, requireSmsValid_bad_slash,
   requireSmsValid_bad_grade, by decide, by decide, by decide, by decide⟩

/-- C1, witness: each quantified gate of the amended theorem fires on a
concrete body. -/
theorem c1_witness :
    requireSmsValid "ABC".toList = some "Invalid sms format."
    ∧ requireSmsValid "#5/10".toList = some "Invalid match key."
    ∧ requireSmsValid "KEY#5".toList = some "Invalid sms grade format."
    ∧ requireSmsValid "KEY#x/10".toList = some "Invalid grade." :=
  ⟨c1_parser_gate_order.1 "ABC".toList (by decide),
   c1_parser_gate_order.2.1 "#5/10".toList "5/10".toList (by decide),
   c1_parser_gate_order.2.2.1 "KEY#5".toList "KEY".toList "5".toList
     (by decide) (by decide) (by decide),
   c1_parser_gate_order.2.2.2.1 "KEY#x/10".toList "KEY".toList "x/10".toList
     "x".toList "10".toList (by decide) (by decide) (by decide) (by decide)⟩

/-- C2, counterexample: the body `"KEY#5"` fails the `/`-shape half of the
syntax gate, yet the reply is "Invalid sms grade format.", not the single
"Invalid sms format." message the claim asserts for every shape mismatch. -/
theorem c2_counterexample :
    requireSmsValid "KEY#5".toList = some "Invalid sms grade format."
    ∧ (splitOnChar '/' ((splitOnChar '#' "KEY#5".toList).getD 1 [])).length ≠ 2
    ∧ some "Invalid sms grade format." ≠ some "Invalid sms format." := by decide

/-- C2 (amended): a body whose `#`-split does not yield exactly two segments
is answered with "Invalid sms format." and processing stops with storage
unchanged; a body whose second segment's `/`-split does not yield exactly
two segments (with a nonempty key) is answered with
"Invalid sms grade format." and processing stops likewise — the two shape
mismatches produce different messages. -/
theorem c2_syntax_gate :
    (∀ (s : List Char) (phone : String) (db : List Match) (now : Int),
      (splitOnChar '#' s).length ≠ 2 →
        requireSmsValid s = some "Invalid sms format."
        ∧ updateGradeSms s phone db now = ([Effect.sendSms phone "Invalid sms format."], db))
    ∧ (∀ (s k g : List Char) (phone : String) (db : List Match) (now : Int),
      splitOnChar '#' s = [k, g] → k ≠ [] → (splitOnChar '/' g).length ≠ 2 →
        requireSmsValid s = some "Invalid sms grade format."
        ∧ updateGradeSms s phone db now =
            ([Effect.sendSms phone "Invalid sms grade format."], db)) := by
  constructor
  · intro s phone db now h
    have h1 := requireSmsValid_not_two s h
    exact ⟨h1, updateGradeSms_rejected s phone db now _ h1⟩
  · intro s k g phone db now h hk hg
    have h1 := requireSmsValid_bad_slash s k g h hk hg
    exact ⟨h1, updateGradeSms_rejected s phone db now _ h1⟩

/-- C2, witness: both syntax-gate halves of the amended theorem at concrete
bodies, over an empty store. -/
theorem c2_witness :
    (requireSmsValid "ABC".toList = some "Invalid sms format."
      ∧ updateGradeSms "ABC".toList "500600700" [] 0 =
          ([Effect.sendSms "500600700" "Invalid sms format."], []))
    ∧ (requireSmsValid "KEY#5".toList = some "Invalid sms grade format."
      ∧ updateGradeSms "KEY#5".toList "500600700" [] 0 =
          ([Effect.sendSms "500600700" "Invalid sms grade format."], [])) :=
  ⟨c2_syntax_gate.1 "ABC".toList "500600700" [] 0 (by decide),
   c2_syntax_gate.2 "KEY#5".toList "KEY".toList "5".toList "500600700" [] 0
     (by decide) (by decide) (by decide)⟩

/-- C3: every run of `updateGradeSms` sends exactly one one-way SMS, and it
goes to the observer's phone number — one reply on each rejection path and
one confirmation on the success path, never zero, never two. -/
theorem c3_exactly_one_reply (msg : List Char) (phone : String) (db : List Match) (now : Int) :
    ∃ reply : String,
      (updateGradeSms msg phone db now).1.filterMap Effect.sent? = [(phone, reply)] := by
  unfold updateGradeSms
  cases h1 : requireSmsValid msg with
  | some reply => exact ⟨reply, rfl⟩
  | none =>
    cases hm : db.find? (fun m => decide (m.userReadableKey = smsMatchKey msg)) with
    | none => exact ⟨"Invalid match key.", rfl⟩
    | some m =>
      cases h2 : requireSmsMatchKeyValid (some m) now with
      | some reply => exact ⟨reply, rfl⟩
      | none =>
        cases h3 : requireSmsGradeValid msg with
        | some reply => exact ⟨reply, rfl⟩
        | none => exact ⟨_, rfl⟩

/-! ### Claims C4 and C10: grade entry windows and zero-grade truthiness -/

/-- C4: a falsy stored grade makes entry unconditional; a truthy stored
grade makes re-entry rejected strictly before `matchDate + 4h` and accepted
from `4h` on; `updateOverallGrade` mirrors this on the separate
`overallGrade`/`overallGradeDate` pair with the 50-hour window, and its
outcome is independent of the referee-grade state.  The last two conjuncts
pin the window constants to the claim's 4 and 50 hours.
(`validateEntryTime` itself is modelled from the spec, its source file being
absent from the snapshot.) -/
theorem c4_grade_reentry_windows :
    (∀ (m : Match) (g : Option JsNum) (now : Int), jsTruthyNum m.refereeGrade = false →
      updateGrade m g now = some { m with refereeGrade := g, refereeGradeDate := some now })
    ∧ (∀ (m : Match) (g : Option JsNum) (now : Int), jsTruthyNum m.refereeGrade = true →
      now < m.matchDate + GRADE_ENTRY_TIME_WINDOW * msPerHour →
      updateGrade m g now = none)
    ∧ (∀ (m : Match) (g : Option JsNum) (now : Int), jsTruthyNum m.refereeGrade = true →
      m.matchDate + GRADE_ENTRY_TIME_WINDOW * msPerHour ≤ now →
      updateGrade m g now = some { m with refereeGrade := g, refereeGradeDate := some now })
    ∧ (∀ (m : Match) (g : Option (List Char)) (now : Int), jsTruthyStr m.overallGrade = false →
      updateOverallGrade m g now =
        some { m with overallGrade := g, overallGradeDate := some now })
    ∧ (∀ (m : Match) (g : Option (List Char)) (now : Int), jsTruthyStr m.overallGrade = true →
      now < m.matchDate + OVERALL_GRADE_ENTRY_TIME_WINDOW * msPerHour →
      updateOverallGrade m g now = none)
    ∧ (∀ (m : Match) (g : Option (List Char)) (now : Int), jsTruthyStr m.overallGrade = true →
      m.matchDate + OVERALL_GRADE_ENTRY_TIME_WINDOW * msPerHour ≤ now →
      updateOverallGrade m g now =
        some { m with overallGrade := g, overallGradeDate := some now })
    ∧ (∀ (m : Match) (g : Option (List Char)) (now : Int) (rg : Option JsNum) (rgd : Option Int),
      updateOverallGrade { m with refereeGrade := rg, refereeGradeDate := rgd } g now =
        (updateOverallGrade m g now).map
          fun r => { r with refereeGrade := rg, refereeGradeDate := rgd })
    ∧ GRADE_ENTRY_TIME_WINDOW = 4 ∧ OVERALL_GRADE_ENTRY_TIME_WINDOW = 50 := by
  refine ⟨?_, ?_, ?_, ?_, ?_, ?_, ?_, by decide, by decide⟩
  · intro m g now h
    simp [updateGrade, h]
  · intro m g now h hw
    have hv : validateEntryTime m.matchDate GRADE_ENTRY_TIME_WINDOW now = false := by
      simp only [validateEntryTime, decide_eq_false_iff_not]
      omega
    simp [updateGrade, h, hv]
  · intro m g now h hw
    have hv : validateEntryTime m.matchDate GRADE_ENTRY_TIME_WINDOW now = true := by
      simp only [validateEntryTime, decide_eq_true_eq]
      omega
    simp [updateGrade, h, hv]
  · intro m g now h
    simp [updateOverallGrade, h]
  · intro m g now h hw
    have hv : validateEntryTime m.matchDate OVERALL_GRADE_ENTRY_TIME_WINDOW now = false := by
      simp only [validateEntryTime, decide_eq_false_iff_not]
      omega
    simp [updateOverallGrade, h, hv]
  · intro m g now h hw
    have hv : validateEntryTime m.matchDate OVERALL_GRADE_ENTRY_TIME_WINDOW now = true := by
      simp only [validateEntryTime, decide_eq_true_eq]
      omega
    simp [updateOverallGrade, h, hv]
  · intro m g now rg rgd
    unfold updateOverallGrade
    by_cases h1 : jsTruthyStr m.overallGrade <;>
      by_cases h2 : validateEntryTime m.matchDate OVERALL_GRADE_ENTRY_TIME_WINDOW now <;>
      simp [h1, h2]

def c4m0 : Match := { id := 1, userReadableKey := [], matchDate := 0 }

def c4m1 : Match := { c4m0 with refereeGrade := some (JsNum.num 8) }

def c4m2 : Match := { c4m0 with overallGrade := some ['A'] }

/-- C4, witness: a match starting at epoch 0 — first entry succeeds at an
arbitrary time, re-entry fails at 3h59m59.999s and succeeds at 4h; overall
re-entry fails just before 50h and succeeds at 50h. -/
theorem c4_witness :
    updateGrade c4m0 (some (JsNum.num 7)) (-999999999) =
      some { c4m0 with refereeGrade := some (JsNum.num 7), refereeGradeDate := some (-999999999) }
    ∧ updateGrade c4m1 (some (JsNum.num 7)) 14399999 = none
    ∧ updateGrade c4m1 (some (JsNum.num 7)) 14400000 =
      some { c4m1 with refereeGrade := some (JsNum.num 7), refereeGradeDate := some 14400000 }
    ∧ updateOverallGrade c4m2 (some ['B']) 179999999 = none
    ∧ updateOverallGrade c4m2 (some ['B']) 180000000 =
      some { c4m2 with overallGrade := some ['B'], overallGradeDate := some 180000000 } :=
  ⟨c4_grade_reentry_windows.1 c4m0 _ _ (by decide),
   c4_grade_reentry_windows.2.1 c4m1 _ _ (by decide) (by decide),
   c4_grade_reentry_windows.2.2.1 c4m1 _ _ (by decide) (by decide),
   c4_grade_reentry_windows.2.2.2.2.1 c4m2 _ _ (by decide) (by decide),
   c4_grade_reentry_windows.2.2.2.2.2.1 c4m2 _ _ (by decide) (by decide)⟩

def c10match : Match :=
  { id := 7, userReadableKey := "1506240102".toList, matchDate := 0,
    refereeGrade := some (JsNum.num 0) }

def c10graded : Match :=
  { c10match with refereeGrade := some (JsNum.num 8), refereeGradeDate := some 54000000 }

/-- C10: a stored `refereeGrade` of `0` is falsy, so `updateGrade` skips the
re-entry window check and overwrites unconditionally, and the inbound-SMS
key gate does not answer "Grade has already been entered." — after match
end the gate passes outright and a full inbound SMS re-sets the grade. -/
theorem c10_zero_grade_is_no_grade :
    (∀ (m : Match) (g : Option JsNum) (now : Int), m.refereeGrade = some (JsNum.num 0) →
      updateGrade m g now = some { m with refereeGrade := g, refereeGradeDate := some now })
    ∧ (∀ (m : Match) (now : Int), m.refereeGrade = some (JsNum.num 0) →
      requireSmsMatchKeyValid (some m) now ≠ some "Grade has already been entered."
      ∧ (m.matchDate + MATCH_DURATION * msPerHour ≤ now →
        requireSmsMatchKeyValid (some m) now = none))
    ∧ updateGradeSms "1506240102#8/10".toList "555000111" [c10match] 54000000 =
        ([Effect.saveMatch c10graded,
          Effect.sendSms "555000111" "Grade for match 1506240102 has been entered."],
         [c10graded]) := by
  have hb : jsTruthyNum (some (JsNum.num 0)) = false := by decide
  refine ⟨?_, ?_, by decide⟩
  · intro m g now h
    simp [updateGrade, h, hb]
  · intro m now h
    refine ⟨?_, ?_⟩
    · simp only [requireSmsMatchKeyValid, h, hb, Bool.false_eq_true, if_false]
      by_cases ht : now < m.matchDate + MATCH_DURATION * msPerHour
      · rw [if_pos ht]; decide
      · rw [if_neg ht]; simp
    · intro hle
      have ht : ¬ (now < m.matchDate + MATCH_DURATION * msPerHour) := by omega
      simp only [requireSmsMatchKeyValid, h, hb, Bool.false_eq_true, if_false]
      rw [if_neg ht]

/-- C10, witness: the zero-graded sample match accepts an immediate API
re-entry and passes the inbound-SMS key gate after match end. -/
theorem c10_witness :
    updateGrade c10match (some (JsNum.num 5)) 1000 =
      some { c10match with refereeGrade := some (JsNum.num 5), refereeGradeDate := some 1000 }
    ∧ requireSmsMatchKeyValid (some c10match) 54000000 = none :=
  ⟨c10_zero_grade_is_no_grade.1 c10match _ _ (by decide),
   (c10_zero_grade_is_no_grade.2.1 c10match 54000000 (by decide)).2 (by decide)⟩

/-! ### Claim C5: the match conflict rule -/

def c5dto : CreateMatchDto := { matchDate := 36000000, homeTeamId := 10, awayTeamId := 20 }

def c5self : Match :=
  { id := 1, userReadableKey := [], matchDate := 36000000, homeTeamId := 10, awayTeamId := 20 }

def c5other : Match :=
  { id := 2, userReadableKey := [], matchDate := 39600000, homeTeamId := 10, awayTeamId := 30 }

/-- C5, counterexample: updating match 1 while a different match (id 2) on
the same calendar day shares its home team — the claim demands rejection,
but `findOne` returns the row being updated itself (first in storage
order), its id matches the excluded id, and validation passes. -/
theorem c5_counterexample :
    validateMatch [c5self, c5other] c5dto (some 1) = none
    ∧ c5other.id ≠ 1
    ∧ dayStartMs c5other.matchDate = dayStartMs c5dto.matchDate
    ∧ c5other.homeTeamId = c5dto.homeTeamId
    ∧ conflictsWith c5dto c5other = true
    ∧ c5dto.homeTeamId ≠ c5dto.awayTeamId := by decide

/-- C5 (amended): identical home and away team ids are rejected regardless
of date; otherwise the single row the lookup returns decides: validation
rejects iff that row's id differs from the excluded one (on creation, with
no excluded id, any same-day team-sharing row rejects; on update a second
conflicting row can be masked when the lookup returns the row being updated
itself); with no conflicting row, validation passes. -/
theorem c5_validate_match :
    (∀ (db : List Match) (dto : CreateMatchDto) (exId : Option Nat),
      dto.homeTeamId = dto.awayTeamId →
      validateMatch db dto exId = some "Home team same as away team")
    ∧ (∀ (db : List Match) (dto : CreateMatchDto),
      dto.homeTeamId ≠ dto.awayTeamId → (db.find? (conflictsWith dto)).isSome = true →
      validateMatch db dto none = some "One of the teams already has a match at that day")
    ∧ (∀ (db : List Match) (dto : CreateMatchDto) (exId : Option Nat) (em : Match),
      dto.homeTeamId ≠ dto.awayTeamId → db.find? (conflictsWith dto) = some em →
      validateMatch db dto exId =
        if some em.id ≠ exId then some "One of the teams already has a match at that day"
        else none)
    ∧ (∀ (db : List Match) (dto : CreateMatchDto) (exId : Option Nat),
      dto.homeTeamId ≠ dto.awayTeamId → db.find? (conflictsWith dto) = none →
      validateMatch db dto exId = none) := by
  refine ⟨?_, ?_, ?_, ?_⟩
  · intro db dto exId h
    simp [validateMatch, h]
  · intro db dto h hf
    obtain ⟨em, hem⟩ := Option.isSome_iff_exists.mp hf
    simp [validateMatch, h, hem]
  · intro db dto exId em h hf
    simp [validateMatch, h, hf]
  · intro db dto exId h hf
    simp [validateMatch, h, hf]

/-- C5, witness: each quantified branch of the amended theorem at a
concrete store. -/
theorem c5_witness :
    validateMatch [] { matchDate := 0, homeTeamId := 3, awayTeamId := 3 } none =
      some "Home team same as away team"
    ∧ validateMatch [c5other] c5dto none =
      some "One of the teams already has a match at that day"
    ∧ validateMatch [c5self] c5dto (some 1) = none
    ∧ validateMatch [] c5dto (some 1) = none := by
  refine ⟨c5_validate_match.1 [] _ none (by decide),
    c5_validate_match.2.1 [c5other] c5dto (by decide) (by decide), ?_, ?_⟩
  · have h := c5_validate_match.2.2.1 [c5self] c5dto (some 1) c5self (by decide) (by decide)
    simpa using h
  · exact c5_validate_match.2.2.2 [] c5dto (some 1) (by decide) (by decide)

/-! ### Claim C6: SMS scheduling precedes match persistence -/

/-- C6: with validation passing, a gateway refusal (non-200) of the
scheduled SMS makes `createMatch` return the service-unavailable error with
no `saveMatch` in its effect trace (storage unchanged); a gateway
acceptance yields the trace schedule-then-save and storage gains exactly
the new row. -/
theorem c6_schedule_before_persist (db : List Match) (lgId : Nat) (dto : CreateMatchDto)
    (lIdx hIdx : Nat) (phone : String) (resp : GwResponse) (newId : Nat)
    (hv : validateMatch db dto none = none) :
    (resp.status ≠ 200 →
      createMatch db lgId dto lIdx hIdx phone resp newId =
        ([Effect.postScheduledSms phone dto.matchDate
            (getUserReadableKey (utcFieldsOfMs dto.matchDate) lIdx hIdx)],
         Except.error "SMS API error: "))
    ∧ (resp.status = 200 →
      ∃ m : Match,
        createMatch db lgId dto lIdx hIdx phone resp newId =
          ([Effect.postScheduledSms phone dto.matchDate
              (getUserReadableKey (utcFieldsOfMs dto.matchDate) lIdx hIdx),
            Effect.saveMatch m],
           Except.ok (db ++ [m]))) := by
  constructor
  · intro hs
    simp [createMatch, hv, scheduleSms, hs]
  · intro hs
    refine ⟨{ id := newId,
              userReadableKey := getUserReadableKey (utcFieldsOfMs dto.matchDate) lIdx hIdx,
              matchDate := dto.matchDate, stadium := dto.stadium,
              homeTeamId := dto.homeTeamId, awayTeamId := dto.awayTeamId,
              refereeId := dto.refereeId, observerId := dto.observerId,
              leagueId := lgId, observerSmsId := natStr resp.messageId }, ?_⟩
    simp [createMatch, hv, scheduleSms, hs]

def c6dto : CreateMatchDto := { matchDate := 1718409600000, homeTeamId := 4, awayTeamId := 5 }

/-- C6, witness: a concrete creation on an empty store; gateway 503 leaves
only the schedule attempt and an error, gateway 200 schedules then saves. -/
theorem c6_witness :
    createMatch [] 9 c6dto 0 1 "555" ⟨503, 0⟩ 42 =
      ([Effect.postScheduledSms "555" 1718409600000 "1506240102".toList],
       Except.error "SMS API error: ")
    ∧ ∃ m : Match, createMatch [] 9 c6dto 0 1 "555" ⟨200, 77⟩ 42 =
        ([Effect.postScheduledSms "555" 1718409600000 "1506240102".toList,
          Effect.saveMatch m],
         Except.ok ([] ++ [m])) :=
  ⟨(c6_schedule_before_persist [] 9 c6dto 0 1 "555" ⟨503, 0⟩ 42 (by decide)).1 (by decide),
   (c6_schedule_before_persist [] 9 c6dto 0 1 "555" ⟨200, 77⟩ 42 (by decide)).2 (by decide)⟩

/-! ### Claim C9: cancelSMS and non-numeric stored ids -/

/-- C9: `cancelSMS` does not fail loudly on a non-numeric stored gateway
id — unary `+` coerces `"abc"` to NaN (and `""` to 0), the cancel request
is issued with that value, and with a 200 gateway answer the call reports
success.  This exhibits the divergence between the code and the claim's
(and the spec's) required fail-loud behaviour. -/
theorem c9_silent_nan_cancel :
    (jsToNumber "abc".toList).isNaN = true
    ∧ cancelSMS "abc".toList ⟨200, 0⟩ = ([Effect.cancelMessage JsNum.nan], Except.ok ())
    ∧ cancelSMS "".toList ⟨200, 0⟩ =
        ([Effect.cancelMessage (JsNum.num 0)], Except.ok ()) := by
  decide

/-! ### Decimal-rendering lemmas for the key formatter -/

lemma natStrAux_fuel (n : Nat) :
    ∀ f g, n < f → n < g → natStrAux f n = natStrAux g n := by
  induction n using Nat.strong_induction_on with
  | _ n ih =>
    intro f g hf hg
    cases f with
    | zero => omega
    | succ f =>
      cases g with
      | zero => omega
      | succ g =>
        simp only [natStrAux]
        by_cases h0 : n = 0
        · simp [h0]
        · have hd : n / 10 < n := Nat.div_lt_self (Nat.pos_of_ne_zero h0) (by omega)
          rw [ih (n / 10) hd f g (by omega) (by omega)]

lemma natStrAux_ne_nil {f n : Nat} (h0 : n ≠ 0) (hf : n < f) : natStrAux f n ≠ [] := by
  cases f with
  | zero => omega
  | succ f => simp [natStrAux, h0]

lemma natStr_ne_nil (n : Nat) : natStr n ≠ [] := by
  unfold natStr
  by_cases h : n = 0
  · simp [h]
  · rw [if_neg h]
    exact natStrAux_ne_nil h (by omega)

lemma natStr_small {n : Nat} (h0 : n ≠ 0) (h : n < 10) : natStr n = [digitChar n] := by
  unfold natStr
  rw [if_neg h0]
  cases n with
  | zero => omega
  | succ k =>
    simp only [natStrAux, h0, if_false]
    rw [Nat.div_eq_of_lt h, Nat.mod_eq_of_lt h]
    cases k <;> simp [natStrAux]

lemma natStr_unfold {n : Nat} (h : 10 ≤ n) :
    natStr n = natStr (n / 10) ++ [digitChar (n % 10)] := by
  have h0 : n ≠ 0 := by omega
  have h10 : n / 10 ≠ 0 := by omega
  unfold natStr
  rw [if_neg h0, if_neg h10]
  have step : natStrAux (n + 1) n = natStrAux n (n / 10) ++ [digitChar (n % 10)] := by
    simp [natStrAux, h0]
  rw [step, natStrAux_fuel (n / 10) n (n / 10 + 1) (by omega) (by omega)]

lemma natStr_reverse_cons (n : Nat) :
    ∃ tail, (natStr n).reverse = digitChar (n % 10) :: tail := by
  rcases Nat.lt_or_ge n 10 with h | h
  · by_cases h0 : n = 0
    · subst h0; exact ⟨[], by decide⟩
    · exact ⟨[], by rw [natStr_small h0 h, Nat.mod_eq_of_lt h]; rfl⟩
  · exact ⟨(natStr (n / 10)).reverse, by rw [natStr_unfold h]; simp⟩

lemma natStr_len_ge3 {x : Nat} (h : 100 ≤ x) : 3 ≤ (natStr x).length := by
  rw [natStr_unfold (show 10 ≤ x by omega),
    natStr_unfold (show 10 ≤ x / 10 by omega)]
  have hl : 1 ≤ (natStr (x / 10 / 10)).length :=
    List.length_pos.mpr (natStr_ne_nil _)
  simp only [List.length_append, List.length_cons, List.length_nil]
  omega

lemma padStart2_long {s : List Char} (h : 2 ≤ s.length) : padStart2 s = s := by
  simp [padStart2, h]

lemma pad2_slice2_natStr (n : Nat) : padStart2 (sliceLast2 (natStr n)) = twoDig n := by
  rcases Nat.lt_or_ge n 10 with h | h
  · by_cases h0 : n = 0
    · subst h0; decide
    · rw [natStr_small h0 h]
      have h48 : digitChar 0 = '0' := by decide
      unfold twoDig
      rw [show n / 10 % 10 = 0 by omega, show n % 10 = n by omega]
      simp [sliceLast2, padStart2, h48]
  · obtain ⟨tail, htail⟩ := natStr_reverse_cons (n / 10)
    rw [natStr_unfold h]
    unfold sliceLast2
    rw [List.reverse_append,
      show List.reverse [digitChar (n % 10)] = [digitChar (n % 10)] from rfl, htail]
    simp [padStart2, twoDig]

lemma pad2_natStr {x : Nat} (h : x < 100) : padStart2 (natStr x) = twoDig x := by
  rcases Nat.lt_or_ge x 10 with h1 | h1
  · by_cases h0 : x = 0
    · subst h0; decide
    · rw [natStr_small h0 h1]
      have h48 : digitChar 0 = '0' := by decide
      unfold twoDig
      rw [show x / 10 % 10 = 0 by omega, show x % 10 = x by omega]
      simp [padStart2, h48]
  · rw [natStr_unfold h1,
      natStr_small (show x / 10 ≠ 0 by omega) (show x / 10 < 10 by omega)]
    unfold twoDig
    rw [show x / 10 % 10 = x / 10 by omega]
    simp [padStart2]

/-! ### Claims C7 and C8: the key formatter -/

/-- C7: for any UTC calendar fields with in-range day and month and indices
up to 98, the key is the concatenation of the five zero-padded two-digit
components (day, month, year mod 100, leagueIdx+1, homeTeamIdx+1), hence
exactly 10 characters, all digits; and the quoted example
`getUserReadableKey(2024-06-15, 0, 1)` (millisecond form of the date
included) yields `"1506240102"`. -/
theorem c7_key_format :
    (∀ (d : UtcDate) (lIdx hIdx : Nat),
      d.utcDate < 100 → d.utcMonth + 1 < 100 → lIdx ≤ 98 → hIdx ≤ 98 →
      getUserReadableKey d lIdx hIdx =
        twoDig d.utcDate ++ twoDig (d.utcMonth + 1) ++ twoDig d.utcFullYear ++
          twoDig (lIdx + 1) ++ twoDig (hIdx + 1)
      ∧ (getUserReadableKey d lIdx hIdx).length = 10
      ∧ ∀ c ∈ getUserReadableKey d lIdx hIdx, c.isDigit = true)
    ∧ getUserReadableKey (utcFieldsOfMs 1718409600000) 0 1 = "1506240102".toList := by
  constructor
  · intro d lIdx hIdx hd hm hl hh
    have key_eq : getUserReadableKey d lIdx hIdx =
        twoDig d.utcDate ++ twoDig (d.utcMonth + 1) ++ twoDig d.utcFullYear ++
          twoDig (lIdx + 1) ++ twoDig (hIdx + 1) := by
      simp only [getUserReadableKey]
      rw [pad2_slice2_natStr, pad2_slice2_natStr, pad2_slice2_natStr,
        pad2_natStr (by omega), pad2_natStr (by omega)]
    have htwo : ∀ (a : Nat) (c : Char), c ∈ twoDig a → c.isDigit = true := by
      intro a c hc
      have hdig : ∀ k : Nat, k < 10 → (digitChar k).isDigit = true := by decide
      simp only [twoDig, List.mem_cons, List.not_mem_nil, or_false] at hc
      rcases hc with h | h <;> (subst h; exact hdig _ (Nat.mod_lt _ (by omega)))
    refine ⟨key_eq, ?_, ?_⟩
    · rw [key_eq]; simp [twoDig]
    · intro c hc
      rw [key_eq] at hc
      simp only [List.mem_append] at hc
      rcases hc with (((hc | hc) | hc) | hc) | hc <;> exact htwo _ _ hc
  · decide

/-- C7, witness: the quantified layout at the example date 2024-06-15 with
indices 0 and 1. -/
theorem c7_witness :
    getUserReadableKey ⟨2024, 5, 15⟩ 0 1 =
      twoDig 15 ++ twoDig 6 ++ twoDig 2024 ++ twoDig 1 ++ twoDig 2
    ∧ (getUserReadableKey ⟨2024, 5, 15⟩ 0 1).length = 10 :=
  ⟨(c7_key_format.1 ⟨2024, 5, 15⟩ 0 1 (by decide) (by decide) (by decide) (by decide)).1,
   (c7_key_format.1 ⟨2024, 5, 15⟩ 0 1 (by decide) (by decide) (by decide) (by decide)).2.1⟩

/-- C8, counterexample: with league index 99 the component `100` is not
truncated to its low-order two digits — the key has 11 characters, not the
claimed 10. -/
theorem c8_counterexample :
    (getUserReadableKey ⟨2024, 5, 15⟩ 99 1).length = 11
    ∧ (getUserReadableKey ⟨2024, 5, 15⟩ 99 1).length ≠ 10
    ∧ getUserReadableKey ⟨2024, 5, 15⟩ 99 1 = "15062410002".toList := by decide

/-- C8 (amended): when a league or home-team ordinal makes `idx + 1` exceed
99, that component is emitted in full (only day/month/year pass through
`slice(-2)`), so the key grows beyond 10 characters instead of staying a
10-character key with truncated low-order digits. -/
theorem c8_overflow_not_truncated :
    ∀ (d : UtcDate) (lIdx hIdx : Nat), d.utcDate < 100 → d.utcMonth + 1 < 100 →
      (99 ≤ lIdx → hIdx ≤ 98 →
        getUserReadableKey d lIdx hIdx =
          twoDig d.utcDate ++ twoDig (d.utcMonth + 1) ++ twoDig d.utcFullYear ++
            natStr (lIdx + 1) ++ twoDig (hIdx + 1)
        ∧ 11 ≤ (getUserReadableKey d lIdx hIdx).length)
      ∧ (lIdx ≤ 98 → 99 ≤ hIdx →
        getUserReadableKey d lIdx hIdx =
          twoDig d.utcDate ++ twoDig (d.utcMonth + 1) ++ twoDig d.utcFullYear ++
            twoDig (lIdx + 1) ++ natStr (hIdx + 1)
        ∧ 11 ≤ (getUserReadableKey d lIdx hIdx).length) := by
  intro d lIdx hIdx hd hm
  constructor
  · intro hl hh
    have h3 : 3 ≤ (natStr (lIdx + 1)).length := natStr_len_ge3 (by omega)
    have key_eq : getUserReadableKey d lIdx hIdx =
        twoDig d.utcDate ++ twoDig (d.utcMonth + 1) ++ twoDig d.utcFullYear ++
          natStr (lIdx + 1) ++ twoDig (hIdx + 1) := by
      simp only [getUserReadableKey]
      rw [pad2_slice2_natStr, pad2_slice2_natStr, pad2_slice2_natStr,
        padStart2_long (by omega), pad2_natStr (by omega)]
    refine ⟨key_eq, ?_⟩
    rw [key_eq]
    simp only [twoDig, List.length_append, List.length_cons, List.length_nil]
    omega
  · intro hl hh
    have h3 : 3 ≤ (natStr (hIdx + 1)).length := natStr_len_ge3 (by omega)
    have key_eq : getUserReadableKey d lIdx hIdx =
        twoDig d.utcDate ++ twoDig (d.utcMonth + 1) ++ twoDig d.utcFullYear ++
          twoDig (lIdx + 1) ++ natStr (hIdx + 1) := by
      simp only [getUserReadableKey]
      rw [pad2_slice2_natStr, pad2_slice2_natStr, pad2_slice2_natStr,
        pad2_natStr (by omega), padStart2_long (by omega)]
    refine ⟨key_eq, ?_⟩
    rw [key_eq]
    simp only [twoDig, List.length_append, List.length_cons, List.length_nil]
    omega

/-- C8, witness: the amended statement at the example date with league
index 99 — the league component is the untruncated `"100"`. -/
theorem c8_witness :
    getUserReadableKey ⟨2024, 5, 15⟩ 99 1 =
      twoDig 15 ++ twoDig 6 ++ twoDig 2024 ++ natStr 100 ++ twoDig 2
    ∧ 11 ≤ (getUserReadableKey ⟨2024, 5, 15⟩ 99 1).length :=
  (c8_overflow_not_truncated ⟨2024, 5, 15⟩ 99 1 (by decide) (by decide)).1
    (by decide) (by decide)

end GradeRef
